import Mathlib

/-
Verification development for the pcommand collection in
tools/batools/pcommands2.py. Each command is shallowly embedded as a Lean
function from an explicit invocation context (batch flag, argv, relevant
filesystem facts, boundary-collaborator results) to a trace of effects plus
an outcome. Strings and lists model Python str and list values; character
lists model Python string iteration.
-/

-- ### Basic string helpers modelling Python str primitives.

/-- Model of Python str.startswith, on character lists (pattern first). -/
def startsWithList : List Char → List Char → Bool
  | [], _ => true
  | _ :: _, [] => false
  | a :: as, b :: bs => a == b && startsWithList as bs

/-- Model of Python str.startswith on strings. -/
def pyStartsWith (s pat : String) : Bool :=
  startsWithList pat.data s.data

/-- Model of Python str.endswith on strings. -/
def pyEndsWith (s suf : String) : Bool :=
  startsWithList suf.data.reverse s.data.reverse

/-- Model of Python substring containment (the in operator), pattern first. -/
def containsSubList (pat : List Char) : List Char → Bool
  | [] => startsWithList pat []
  | c :: t => startsWithList pat (c :: t) || containsSubList pat t

/-- Model of Python substring containment on strings. -/
def containsSub (s pat : String) : Bool :=
  containsSubList pat.data s.data

/-- Model of Python slicing s[n:] (drop the first n code points). -/
def sliceFrom (s : String) (n : Nat) : String :=
  String.mk (s.data.drop n)

/-- Model of Python str.strip() with no arguments. -/
def pyStrip (s : String) : String :=
  String.mk (((s.data.dropWhile Char.isWhitespace).reverse.dropWhile
    Char.isWhitespace).reverse)

/-- Model of os.path.dirname: everything before the final slash, with
trailing slashes stripped unless the result is all slashes. -/
def dirname (p : String) : String :=
  let upto := (p.data.reverse.dropWhile (fun c => c != '/')).reverse
  if upto.isEmpty then ""
  else if upto.all (fun c => c == '/') then String.mk upto
  else String.mk ((upto.reverse.dropWhile (fun c => c == '/')).reverse)

/-- Greedy line filler: model of textwrap.fill word packing at a fixed
width (the source only wraps single-spaced single-line paragraphs). -/
def fillLines (width : Nat) : List String → String → List String
  | [], cur => [cur]
  | w :: ws, cur =>
    if cur = "" then fillLines width ws w
    else if (cur ++ " " ++ w).length ≤ width then
      fillLines width ws (cur ++ " " ++ w)
    else cur :: fillLines width ws w

/-- Model of textwrap.fill txt width. -/
def fill (txt : String) (width : Nat) : String :=
  String.intercalate "\n" (fillLines width (txt.splitOn " ") "")

/-- Model of textwrap.indent with a fixed prefix string: the prefix is
added to every line that is not whitespace-only. -/
def indentLines (pre s : String) : String :=
  String.intercalate "\n"
    ((s.splitOn "\n").map (fun l => if pyStrip l = "" then l else pre ++ l))

/-- Model of Python str.replace for the single-character pattern backslash
replaced by a double backslash. -/
def escapeBackslashes (s : String) : String :=
  String.mk (s.data.flatMap (fun c => if c = '\\' then ['\\', '\\'] else [c]))

-- ### Effects and outcomes of a command invocation.

/-- One observable side effect of a command, in program order. -/
inductive Effect where
  | print (s : String)
  | logException (s : String)
  | chdir (p : String)
  | pathAppend (p : String)
  | makedirs (p : String)
  | unlink (p : String)
  | writeFile (p : String) (content : String)
  | run (args : List String)
  | runCwd (cwd : String) (args : List String)
  | cacheGet (target : String)
  | acquireBinary (purpose : String)
  | examineCall
  | spinoffTestCall (args : List String)
deriving DecidableEq

/-- True for effects that touch the filesystem, spawn a subprocess, or hit
the artifact cache; false for pure output/logging/process-local effects. -/
def Effect.isFsOrSubprocess : Effect → Bool
  | .makedirs _ => true
  | .unlink _ => true
  | .writeFile _ _ => true
  | .run _ => true
  | .runCwd _ _ => true
  | .cacheGet _ => true
  | .acquireBinary _ => true
  | _ => false

/-- True only for file-deletion effects. -/
def Effect.isUnlink : Effect → Bool
  | .unlink _ => true
  | _ => false

/-- True only for stdout print effects. -/
def Effect.isPrint : Effect → Bool
  | .print _ => true
  | _ => false

/-- The exact text a trace writes to standard output. -/
def stdoutOf (effs : List Effect) : String :=
  effs.foldl (fun acc e => match e with | .print s => acc ++ s | _ => acc) ""

/-- How a command invocation terminates. -/
inductive Outcome where
  | ok
  | cleanError (msg : String)
  | batchError
  | exitCode (code : Nat)
  | procError
  | uncaught (msg : String)
deriving DecidableEq

/-- True when the outcome is the misuse/clean user-facing error channel
(a raised CleanError, or the batch-dispatch guard error). -/
def Outcome.isMisuseError : Outcome → Bool
  | .cleanError _ => true
  | .batchError => true
  | _ => false

-- ### gen_monolithic_register_modules.

/-- A feature set descriptor, as exposed by the feature-set registry
boundary: a name, whether it provides a native Python binary module, and
the derived binary-module name. -/
structure FeatureSet where
  name : String
  has_python_binary_module : Bool
  name_python_binary_module : String
deriving DecidableEq

/-- The init-function identifier for one module name: PyInit_ followed by
the name, except the special static case _baplus which forwards through
DoPyInit_. -/
def initname (mname : String) : String :=
  if mname = "_baplus" then "DoPyInit_" ++ mname else "PyInit_" ++ mname

/-- Model of the Python str less-than comparison: lexicographic on code
points. -/
def strLtList : List Char → List Char → Bool
  | [], [] => false
  | [], _ :: _ => true
  | _ :: _, [] => false
  | a :: as, b :: bs => decide (a < b) || (a == b && strLtList as bs)

/-- Model of the Python str less-or-equal comparison used by sorted. -/
def pyStrLe (a b : String) : Bool :=
  strLtList a.data b.data || a.data == b.data

/-- The ordering relation that sorted sorts by. -/
def pyStrLeRel (a b : String) : Prop := pyStrLe a b = true

instance : DecidableRel pyStrLeRel := fun a b =>
  inferInstanceAs (Decidable (pyStrLe a b = true))

/-- The kept, sorted native-module names: filter to feature sets with a
binary module, take each derived module name, sort. -/
def pymodulenames (featuresets : List FeatureSet) : List String :=
  List.insertionSort pyStrLeRel
    ((featuresets.filter (fun f => f.has_python_binary_module)).map
      (fun f => f.name_python_binary_module))

/-- One forward-declaration line per module name, in list order. -/
def externDefLines (names : List String) : List String :=
  names.map (fun n => "auto " ++ initname n ++ "() -> PyObject*;")

/-- The extern forward-declaration block: newline-joined lines. -/
def extern_def_code (names : List String) : String :=
  String.intercalate "\n" (externDefLines names)

/-- One registration statement per module name, in list order. -/
def pyRegisterLines (names : List String) : List String :=
  names.map (fun n =>
    "PyImport_AppendInittab(\"" ++ n ++ "\", &" ++ initname n ++ ");")

/-- The registration block: newline-joined registration statements. -/
def py_register_code (names : List String) : String :=
  String.intercalate "\n" (pyRegisterLines names)

/-- The forwarding definition for PyInit__baplus, emitted only when the
_baplus module is present among the kept names. -/
def initPlusLiteral : String :=
  "\n" ++
  "// Slight hack: because we are currently building baplus as a" ++
  " static module\n" ++
  "// and linking it in, symbols exported there (namely" ++
  " PyInit__baplus) do not\n" ++
  "// seem to be available through us when we are compiled as" ++
  " a dynamic\n" ++
  "// library. This leads to Python being unable to load baplus." ++
  " While I\x27m sure\n" ++
  "// there is some way to get those symbols exported, I\x27m worried" ++
  " it might be\n" ++
  "// a messy platform-specific affair. So instead we\x27re just" ++
  " defining that\n" ++
  "// function here when baplus is present and forwarding it through" ++
  " to the\n" ++
  "// static library version.\n" ++
  "extern \"C\" auto PyInit__baplus() -> PyObject* \x7b\n" ++
  "  return DoPyInit__baplus();\n" ++
  "\x7d\n"

/-- The init-plus block: the forwarding definition if _baplus is among the
names, else empty. -/
def init_plus_code (names : List String) : String :=
  if "_baplus" ∈ names then initPlusLiteral else ""

/-- The fixed header template, transcribed with the uniform 8-space
leading indentation already removed (the source applies textwrap.dedent to
an indented literal; the dedented text is what substitution sees). -/
def monolithicBaseCode : String :=
  "\n" ++
  "// Released under the MIT License. See LICENSE for details.\n" ++
  "\n" ++
  "#ifndef BALLISTICA_CORE_MGEN_PYTHON_MODULES_MONOLITHIC_H_\n" ++
  "#define BALLISTICA_CORE_MGEN_PYTHON_MODULES_MONOLITHIC_H_\n" ++
  "\n" ++
  "// THIS CODE IS AUTOGENERATED BY META BUILD; DO NOT EDIT BY HAND.\n" ++
  "\n" ++
  "#include \"ballistica/shared/ballistica.h\"\n" ++
  "#include \"ballistica/shared/python/python_sys.h\"\n" ++
  "\n" ++
  "extern \"C\" \x7b\n" ++
  "$\x7bEXTERN_DEF_CODE\x7d\n" ++
  "\x7d\n" ++
  "\n" ++
  "namespace ballistica \x7b\n" ++
  "\n" ++
  "/// Register init calls for all of our built-in Python modules.\n" ++
  "/// Should only be used in monolithic builds. In modular builds\n" ++
  "/// binary modules get located as .so files on disk as per regular\n" ++
  "/// Python behavior.\n" ++
  "void MonolithicRegisterPythonModules() \x7b\n" ++
  "  if (g_buildconfig.monolithic_build()) \x7b\n" ++
  "$\x7bPY_REGISTER_CODE\x7d\n" ++
  "  \x7d else \x7b\n" ++
  "    FatalError(\n" ++
  "        \"MonolithicRegisterPythonModules should not be called\"\n" ++
  "        \" in modular builds.\");\n" ++
  "  \x7d\n" ++
  "\x7d\n" ++
  "$\x7bPY_INIT_PLUS\x7d\n" ++
  "\x7d  // namespace ballistica\n" ++
  "\n" ++
  "#endif  // BALLISTICA_CORE_MGEN_PYTHON_MODULES_MONOLITHIC_H_\n"

/-- The final generated header text: the template with the three blocks
substituted (the registration block indented by four spaces), stripped,
with one trailing newline. -/
def monolithicHeaderOut (featuresets : List FeatureSet) : String :=
  let names := pymodulenames featuresets
  (((monolithicBaseCode.replace "$\x7bEXTERN_DEF_CODE\x7d"
      (extern_def_code names)).replace "$\x7bPY_REGISTER_CODE\x7d"
      (indentLines "    " (py_register_code names))).replace
      "$\x7bPY_INIT_PLUS\x7d" (init_plus_code names)).trim ++ "\n"

/-- The gen_monolithic_register_modules command: batch guard, argument
count check, then directory creation and the header write. -/
def gen_monolithic_register_modules (batch : Bool) (argv : List String)
    (featuresets : List FeatureSet) : List Effect × Outcome :=
  if batch then ([], .batchError) else
  if argv.length ≠ 3 then ([], .cleanError "Expected 1 arg.") else
  let outpath := argv.getD 2 ""
  ([Effect.makedirs (dirname outpath),
    Effect.writeFile outpath (monolithicHeaderOut featuresets)], .ok)

-- ### py_examine.

/-- The py_examine command: batch guard, argument-count check (printing an
error and exiting with status 255 on mismatch), integer parsing of the
line/column arguments, then working-directory change, module-search-path
extension and delegation to the analysis helper. Directory strings are
carried unresolved (the source applies os.path.abspath relative to the
ambient working directory, a boundary concern). -/
def py_examine (batch : Bool) (argv : List String) (syspath : List String) :
    List Effect × Outcome :=
  if batch then ([], .batchError) else
  if argv.length ≠ 7 then
    ([Effect.print "ERROR: expected 7 args\n"], .exitCode 255)
  else
    match (argv.getD 3 "").toInt?, (argv.getD 4 "").toInt? with
    | some _, some _ =>
      let scriptsdir := dirname (argv.getD 0 "") ++
        "/../src/assets/ba_data/python"
      let toolsdir := dirname (argv.getD 0 "") ++ "/../tools"
      (Effect.chdir "PROJROOT" ::
        ((if syspath.contains scriptsdir then []
          else [Effect.pathAppend scriptsdir]) ++
         (if syspath.contains toolsdir then []
          else [Effect.pathAppend toolsdir]) ++
         [Effect.examineCall]), .ok)
    | _, _ => ([], .uncaught "ValueError")

-- ### clean_orphaned_assets.

/-- The on-disk state of the built-assets tree: whether the root directory
build/assets itself exists, the regular files under it (full walk paths),
and the directories strictly below the root (full paths). -/
structure AssetsState where
  rootExists : Bool
  files : List String
  dirs : List String
deriving DecidableEq

/-- The files the cleaner deletes: walk paths whose tail after the first
13 characters (the length of the literal build/assets/ root spelling) is
not in the manifest. -/
def orphanDeletions (manifest files : List String) : List String :=
  files.filter (fun f => !(manifest.contains (sliceFrom f 13)))

/-- The files the cleaner leaves in place: walk paths whose stripped tail
is in the manifest. -/
def orphanKept (manifest files : List String) : List String :=
  files.filter (fun f => manifest.contains (sliceFrom f 13))

/-- The clean_orphaned_assets command: batch guard, chdir to the project
root, load and union the two manifests, walk the tree deleting each file
whose stripped relative path is unknown (printing a notice per deletion),
then invoke find to delete empty directories bottom-up. The find
invocation also removes the walk root itself when it has become empty, and
exits nonzero (raising, per check=True) when the root does not exist. A
directory survives the bottom-up empty-pruning exactly when some surviving
file lies beneath it. -/
def clean_orphaned_assets_run (batch : Bool)
    (manifest_public manifest_private : List String) (st : AssetsState) :
    AssetsState × List Effect × Outcome :=
  if batch then (st, [], .batchError) else
  let manifest := manifest_public ++ manifest_private
  let walked := if st.rootExists then st.files else []
  let deleted := orphanDeletions manifest walked
  let kept := orphanKept manifest walked
  let effs := Effect.chdir "PROJROOT" ::
    ((deleted.flatMap (fun f =>
      [Effect.print ("Removing orphaned asset file: " ++ f ++ "\n"),
       Effect.unlink f])) ++
     [Effect.run ["find build/assets -depth -empty -type d -delete"]])
  if st.rootExists then
    (⟨!kept.isEmpty, kept,
      st.dirs.filter (fun d =>
        kept.any (fun f => pyStartsWith f (d ++ "/")))⟩, effs, .ok)
  else
    (st, effs, .procError)

-- ### win_ci_install_prereqs.

/-- The win_ci_install_prereqs command: batch guard, a fixed base set of
three cache targets plus every meta-manifest target matching the mgen path
patterns, each resolved through the cache client. Python iterates the
needed targets as a set; the model keeps first-occurrence order. -/
def win_ci_install_prereqs (batch : Bool)
    (meta_public meta_private : List String) : List Effect × Outcome :=
  if batch then ([], .batchError) else
  let lib_dbg_win32 := "build/prefab/lib/windows/Debug_Win32"
  let base := [lib_dbg_win32 ++ "/BallisticaKitGenericPlus.lib",
               lib_dbg_win32 ++ "/BallisticaKitGenericPlus.pdb",
               "ballisticakit-windows/Generic/BallisticaKit.ico"]
  let extra := (meta_public ++ meta_private).filter (fun t =>
    (pyStartsWith t "src/ballistica/" && containsSub t "/mgen/") ||
    (pyStartsWith t "src/assets/ba_data/python/" &&
      containsSub t "/_mgen/"))
  ((base ++ extra).eraseDups.map (fun t => Effect.cacheGet t), .ok)

-- ### win_ci_binary_build.

/-- The fixed MSBuild install path the CI build invokes. -/
def msbuildPath : String :=
  "C:\\Program Files (x86)\\Microsoft Visual Studio\\2019\\" ++
  "Enterprise\\MSBuild\\Current\\Bin\\MSBuild.exe"

/-- The win_ci_binary_build command: batch guard, then one fixed MSBuild
invocation whose nonzero exit propagates fatally. -/
def win_ci_binary_build (batch : Bool) (msbuildOk : Bool) :
    List Effect × Outcome :=
  if batch then ([], .batchError) else
  ([Effect.run [msbuildPath,
     "ballisticakit-windows\\Generic\\BallisticaKitGeneric.vcxproj",
     "-target:Build", "-property:Configuration=Debug",
     "-property:Platform=Win32", "-property:VisualStudioVersion=16"]],
   if msbuildOk then .ok else .procError)

-- ### update_cmake_prefab_lib.

/-- The prefab target path composed from platform, gui/server suffix and
mode. -/
def prefabTarget (platform suffix mode : String) : String :=
  "build/prefab/lib/" ++ platform ++ suffix ++ "/" ++ mode ++
  "/libballisticaplus.a"

/-- The update_cmake_prefab_lib command: batch guard, argument checks,
make on the composed target, then a conditional copy: skipped exactly when
the destination exists and the freshly built target is not strictly newer,
creating the destination directory when the copy happens and the directory
is missing. File modification times enter as explicit inputs. -/
def update_cmake_prefab_lib (batch : Bool) (argv : List String)
    (platform : String) (makeOk : Bool) (targetMtime : Int)
    (libpathExists : Bool) (libpathMtime : Int) (libdirExists : Bool) :
    List Effect × Outcome :=
  if batch then ([], .batchError) else
  if argv.length ≠ 5 then
    ([], .cleanError "Expected 3 args (standard/server, debug/release, build-dir)")
  else
  let buildtype := argv.getD 2 ""
  let mode := argv.getD 3 ""
  let builddir := argv.getD 4 ""
  if ¬(buildtype = "standard" ∨ buildtype = "server") then
    ([], .cleanError ("Invalid buildtype: " ++ buildtype))
  else
  if ¬(mode = "debug" ∨ mode = "release") then
    ([], .cleanError ("Invalid mode: " ++ mode))
  else
  let suffix := if buildtype = "server" then "_server" else "_gui"
  let target := prefabTarget platform suffix mode
  if ¬makeOk then ([Effect.run ["make", target]], .procError) else
  let libdir := builddir ++ "/prefablib"
  let update := if libpathExists then
      (if targetMtime ≤ libpathMtime then false else true)
    else true
  if update then
    (Effect.run ["make", target] ::
      ((if ¬libdirExists then [Effect.makedirs libdir] else []) ++
       [Effect.run ["cp", target, libdir]]), .ok)
  else
    ([Effect.run ["make", target]], .ok)

-- ### android_archive_unstripped_libs.

/-- The four fixed architecture-ABI pairs the archiver looks for. -/
def androidAbis : List (String × String) :=
  [("armeabi-v7a", "arm"), ("arm64-v8a", "arm64"), ("x86", "x86"),
   ("x86_64", "x86-64")]

/-- The android_archive_unstripped_libs command: batch guard, argument
check, unconditional wipe-and-recreate of the destination directory, the
source-directory existence check, then per-ABI copy, tar (run inside the
destination directory) and removal of the uncompressed copy; absent ABI
source files are skipped silently. -/
def android_archive_unstripped_libs (batch : Bool) (argv : List String)
    (dstExists : Bool) (srcIsDir : Bool) (srcHas : String → Bool)
    (clrB clrR : String) : List Effect × Outcome :=
  if batch then ([], .batchError) else
  if argv.length ≠ 4 then
    ([], .cleanError "Expected 2 args; src-dir and dst-dir")
  else
  let src := argv.getD 2 ""
  let dst := argv.getD 3 ""
  let preEffs := (if dstExists then [Effect.run ["rm", "-rf", dst]]
                  else []) ++ [Effect.makedirs dst]
  if ¬srcIsDir then
    (preEffs, .cleanError ("Source dir not found: \x27" ++ src ++ "\x27"))
  else
  let abiEffs := androidAbis.flatMap (fun p =>
    if srcHas p.1 then
      [Effect.print ("Archiving unstripped library: " ++ clrB ++
         "libmain_" ++ p.2 ++ ".so" ++ clrR ++ "\n"),
       Effect.run ["cp", src ++ "/" ++ p.1 ++ "/libmain.so",
         dst ++ "/libmain_" ++ p.2 ++ ".so"],
       Effect.runCwd dst ["tar", "-zcf", "libmain_" ++ p.2 ++ ".so.tgz",
         "libmain_" ++ p.2 ++ ".so"],
       Effect.run ["rm", dst ++ "/libmain_" ++ p.2 ++ ".so"]]
    else [])
  (preEffs ++ abiEffs, .ok)

-- ### spinoff_test.

/-- The spinoff_test command: a thin delegation that forwards every
argument after the command name to the spinoff test entry point. It is the
one command with no batch-dispatch guard. -/
def spinoff_test (batch : Bool) (argv : List String) :
    List Effect × Outcome :=
  ([Effect.spinoffTestCall (argv.drop 2)], .ok)

-- ### spinoff_check_submodule_parent.

/-- The spinoff_check_submodule_parent command: batch guard, then three
project-structure checks in order, each with its own clean error. -/
def spinoff_check_submodule_parent (batch : Bool)
    (spinoffPathExists spinoffIsLink submoduleIsDir : Bool) :
    List Effect × Outcome :=
  if batch then ([], .batchError) else
  if ¬spinoffPathExists then
    ([], .cleanError "This does not appear to be a spinoff-enabled project.")
  else
  if ¬spinoffIsLink then
    ([], .cleanError "This project is a spinoff parent; we require a dst.")
  else
  if ¬submoduleIsDir then
    ([], .cleanError ("This project is not using a submodule for its parent.\nTo set one up, run `tools/spinoff add-submodule-parent`"))
  else ([], .ok)

-- ### gen_python_init_module.

/-- The gen_python_init_module command: batch guard, argument check,
parent-directory creation, a status print naming the project-relative
rendering of the output path (a boundary computation, passed in), and the
fixed two-line header write. -/
def gen_python_init_module (batch : Bool) (argv : List String)
    (prettypath clrB clrR : String) : List Effect × Outcome :=
  if batch then ([], .batchError) else
  if argv.length ≠ 3 then ([], .cleanError "Expected an outfile arg.") else
  let outfilename := argv.getD 2 ""
  ([Effect.makedirs (dirname outfilename),
    Effect.print ("Meta-building " ++ clrB ++ prettypath ++ clrR ++ "\n"),
    Effect.writeFile outfilename
      "# Released under the MIT License. See LICENSE for details.\n#\n"],
   .ok)

-- ### tests_warm_start.

/-- The tests_warm_start command: batch guard, then a binary
pre-acquisition unless test runs are globally disabled. -/
def tests_warm_start (batch : Bool) (testRunsDisabled : Bool) :
    List Effect × Outcome :=
  if batch then ([], .batchError) else
  if ¬testRunsDisabled then
    ([Effect.acquireBinary "running tests"], .ok)
  else ([], .ok)

-- ### wsl_build_check_win_drive.

/-- The four explanatory paragraphs of the Windows-drive failure message,
before wrapping. -/
def winDriveParagraphs : List String :=
  ["ERROR: This project appears to live on the Linux filesystem.",
   "Visual Studio compiles will error here for reasons related to Linux" ++
   " filesystem case-sensitivity, and thus are disallowed." ++
   " Clone the repo to a location that maps to a native Windows drive" ++
   " such as \x27/mnt/c/ballistica\x27 and try again.",
   "Note that WSL2 filesystem performance is poor when accessing native" ++
   " Windows drives, so if Visual Studio builds are not needed it may be" ++
   " best to keep things on the Linux filesystem." ++
   " This behavior may differ under WSL1 (untested).",
   "Set env-var WSL_BUILD_CHECK_WIN_DRIVE_IGNORE=1 to skip this check."]

/-- The full multi-paragraph failure message: each paragraph wrapped to 76
columns, paragraphs joined by blank lines. -/
def winDriveMsg : String :=
  String.intercalate "\n\n" (winDriveParagraphs.map (fun t => fill t 76))

/-- The wsl_build_check_win_drive command: batch guard, wslpath
availability check, the override environment variable, then translation of
the working directory and the backslash-backslash-wsl-dollar residency
test. The translated text enters as the raw wslpath standard output. -/
def wsl_build_check_win_drive (batch : Bool) (wslpathAvailable : Bool)
    (envIgnore : Option String) (cwd : String) (wslpathOut : String) :
    List Effect × Outcome :=
  if batch then ([], .batchError) else
  if ¬wslpathAvailable then
    ([Effect.run ["which", "wslpath"]],
     .cleanError "wslpath not found; you must run this from a WSL environment")
  else
  if envIgnore = some "1" then ([Effect.run ["which", "wslpath"]], .ok) else
  let path := pyStrip wslpathOut
  let effs := [Effect.run ["which", "wslpath"],
               Effect.run ["wslpath", "-w", "-a", cwd]]
  if ¬(pyStartsWith path "\\\\wsl$" = true) then (effs, .ok)
  else (effs, .cleanError winDriveMsg)

-- ### wsl_path_to_win.

/-- The sentinel failure string printed in place of a path. -/
def wslSentinel : String := "wsl_to_escaped_win_path_error_occurred"

/-- The permissive flag/path argument scan: create and escape flags
accumulate, at most one non-flag path argument is accepted. -/
def parseWslArgs : List String → Bool → Bool → Option String →
    Except String (Bool × Bool × Option String)
  | [], create, escapeFlag, p => .ok (create, escapeFlag, p)
  | arg :: rest, create, escapeFlag, p =>
    if arg = "--create" then parseWslArgs rest true escapeFlag p
    else if arg = "--escape" then parseWslArgs rest create true p
    else if p.isSome then .error "More than one path provided."
    else parseWslArgs rest create escapeFlag (some arg)

/-- The guarded region of wsl_path_to_win (everything inside the try):
argument-count check, flag parsing, optional directory creation, the
existence check, and the wslpath invocation. Returns the effects emitted
so far together with either the raised exception text or the escape flag
and path for the untried tail. -/
def wslPathGuarded (argv : List String) (pathExists : String → Bool)
    (mkdirOk : Bool) (wslOk : Bool) :
    List Effect × Except String (Bool × String) :=
  if argv.length < 3 then ([], .error "Expected at least 1 path arg.") else
  match parseWslArgs (argv.drop 2) false false none with
  | .error e => ([], .error e)
  | .ok (create, escapeFlag, pOpt) =>
    match pOpt with
    | none => ([], .error "No path provided.")
    | some wsl_path =>
      let mkEffs := if create then [Effect.makedirs wsl_path] else []
      if create ∧ ¬mkdirOk then (mkEffs, .error "OSError") else
      let existsNow := (create && mkdirOk) || pathExists wsl_path
      if ¬existsNow then
        (mkEffs, .error ("Path \x27" ++ wsl_path ++ "\x27 does not exist."))
      else
      let wslEff := Effect.run ["wslpath", "-w", "-a", wsl_path]
      if ¬wslOk then (mkEffs ++ [wslEff], .error "CalledProcessError") else
      (mkEffs ++ [wslEff], .ok (escapeFlag, wsl_path))

/-- The wsl_path_to_win command: batch guard, then the guarded region; on
any exception there, the exception is logged and the sentinel printed with
no newline, returning normally; on success the translated output is
stripped, given a trailing backslash when the input ended in a slash and
the translation does not already end in one, backslash-doubled when
escaping was requested, and printed with no newline. -/
def wsl_path_to_win (batch : Bool) (argv : List String)
    (pathExists : String → Bool) (mkdirOk : Bool) (wslOk : Bool)
    (wslOut : String) : List Effect × Outcome :=
  if batch then ([], .batchError) else
  match wslPathGuarded argv pathExists mkdirOk wslOk with
  | (effs, .error _) =>
    (effs ++ [Effect.logException "wsl_to_escaped_win_path failed.",
      Effect.print wslSentinel], .ok)
  | (effs, .ok (escapeFlag, wsl_path)) =>
    let out0 := pyStrip wslOut
    let out1 := if pyEndsWith wsl_path "/" && !(pyEndsWith out0 "\\") then
        out0 ++ "\\"
      else out0
    let out2 := if escapeFlag then escapeBackslashes out1 else out1
    (effs ++ [Effect.print out2], .ok)

-- ### Order facts for the sorting relation.

/-- Lexicographic character-list less-than is transitive. -/
theorem strLtList_trans : ∀ as bs cs : List Char, strLtList as bs = true →
    strLtList bs cs = true → strLtList as cs = true := by
  intro as
  induction as with
  | nil =>
    intro bs cs h1 h2
    cases bs with
    | nil => simp [strLtList] at h1
    | cons b bs' =>
      cases cs with
      | nil => simp [strLtList] at h2
      | cons c cs' => simp [strLtList]
  | cons a as' ih =>
    intro bs cs h1 h2
    cases bs with
    | nil => simp [strLtList] at h1
    | cons b bs' =>
      cases cs with
      | nil => simp [strLtList] at h2
      | cons c cs' =>
        simp only [strLtList, Bool.or_eq_true, decide_eq_true_eq,
          Bool.and_eq_true, beq_iff_eq] at h1 h2 ⊢
        rcases h1 with h1 | ⟨hab, h1⟩
        · rcases h2 with h2 | ⟨hbc, h2⟩
          · exact Or.inl (lt_trans h1 h2)
          · exact Or.inl (hbc ▸ h1)
        · subst hab
          rcases h2 with h2 | ⟨hbc, h2⟩
          · exact Or.inl h2
          · exact Or.inr ⟨hbc, ih _ _ h1 h2⟩

/-- Lexicographic character-list less-than is a trichotomy. -/
theorem strLtList_total : ∀ as bs : List Char,
    strLtList as bs = true ∨ as = bs ∨ strLtList bs as = true := by
  intro as
  induction as with
  | nil =>
    intro bs
    cases bs with
    | nil => exact Or.inr (Or.inl rfl)
    | cons b bs' => exact Or.inl (by simp [strLtList])
  | cons a as' ih =>
    intro bs
    cases bs with
    | nil => exact Or.inr (Or.inr (by simp [strLtList]))
    | cons b bs' =>
      rcases lt_trichotomy a b with h | h | h
      · exact Or.inl (by simp [strLtList, h])
      · subst h
        rcases ih bs' with h' | h' | h'
        · exact Or.inl (by simp [strLtList, h'])
        · exact Or.inr (Or.inl (by rw [h']))
        · exact Or.inr (Or.inr (by simp [strLtList, h']))
      · exact Or.inr (Or.inr (by simp [strLtList, h]))

/-- Strings with equal character data are equal. -/
theorem string_data_inj {a b : String} (h : a.data = b.data) : a = b := by
  cases a
  cases b
  exact congrArg String.mk h

instance : IsTrans String pyStrLeRel where
  trans := by
    intro a b c hab hbc
    simp only [pyStrLeRel, pyStrLe, Bool.or_eq_true, beq_iff_eq] at hab hbc ⊢
    rcases hab with hab | hab
    · rcases hbc with hbc | hbc
      · exact Or.inl (strLtList_trans _ _ _ hab hbc)
      · exact Or.inl (hbc ▸ hab)
    · rcases hbc with hbc | hbc
      · exact Or.inl (hab ▸ hbc)
      · exact Or.inr (hab.trans hbc)

instance : IsTotal String pyStrLeRel where
  total := by
    intro a b
    simp only [pyStrLeRel, pyStrLe, Bool.or_eq_true, beq_iff_eq]
    rcases strLtList_total a.data b.data with h | h | h
    · exact Or.inl (Or.inl h)
    · exact Or.inl (Or.inr h)
    · exact Or.inr (Or.inl h)

set_option maxRecDepth 8000

-- ### General list helper lemmas.

/-- Filtering twice with the same predicate changes nothing. -/
theorem filter_filter_self {α : Type} (p : α → Bool) (l : List α) :
    (l.filter p).filter p = l.filter p := by
  induction l with
  | nil => rfl
  | cons a t ih =>
    by_cases h : p a = true
    · simp [List.filter_cons, h, ih]
    · simp [List.filter_cons, h, ih]

/-- Filtering with the negated predicate after filtering with the
predicate leaves nothing. -/
theorem filter_neg_filter {α : Type} (p : α → Bool) (l : List α) :
    (l.filter p).filter (fun a => !(p a)) = [] := by
  induction l with
  | nil => rfl
  | cons a t ih =>
    by_cases h : p a = true
    · simp [List.filter_cons, h, ih]
    · simp [List.filter_cons, h, ih]

-- ### Example inputs used by concrete evaluations.

/-- The three feature sets of the testable-property example, all flagged
as providing native binary modules. -/
def exampleFeatureSets : List FeatureSet :=
  [⟨"zeta", true, "zeta"⟩, ⟨"alpha", true, "alpha"⟩,
   ⟨"_baplus", true, "_baplus"⟩]

/-- C1 counterexample: for feature sets named zeta, alpha and _baplus, all
with native binary modules, the sorted module-name list that both
generated blocks follow is _baplus, alpha, zeta (the underscore sorts
before lowercase letters), not the claimed alpha, zeta, _baplus; the
forward-declaration block shows the same order. -/
theorem c1_order_counterexample :
    pymodulenames exampleFeatureSets = ["_baplus", "alpha", "zeta"] ∧
    pymodulenames exampleFeatureSets ≠ ["alpha", "zeta", "_baplus"] ∧
    extern_def_code (pymodulenames exampleFeatureSets) =
      "auto DoPyInit__baplus() -> PyObject*;\n" ++
      "auto PyInit_alpha() -> PyObject*;\n" ++
      "auto PyInit_zeta() -> PyObject*;" ∧
    py_register_code (pymodulenames exampleFeatureSets) =
      "PyImport_AppendInittab(\"_baplus\", &DoPyInit__baplus);\n" ++
      "PyImport_AppendInittab(\"alpha\", &PyInit_alpha);\n" ++
      "PyImport_AppendInittab(\"zeta\", &PyInit_zeta);" := by
  refine ⟨by decide, by decide, by decide, by decide⟩

/-- C1 (amended): the module names kept for the generated header are
sorted lexicographically by code point, and both the forward-declaration
block and the registration block list them in exactly that order (one line
per name over the sorted list); for the example feature sets zeta, alpha
and _baplus the shared order is _baplus, alpha, zeta. -/
theorem c1_module_names_sorted :
    (∀ featuresets : List FeatureSet,
      List.Sorted pyStrLeRel (pymodulenames featuresets)) ∧
    (∀ names : List String,
      externDefLines names =
        names.map (fun n => "auto " ++ initname n ++ "() -> PyObject*;") ∧
      pyRegisterLines names =
        names.map (fun n => "PyImport_AppendInittab(\"" ++ n ++ "\", &" ++
          initname n ++ ");")) ∧
    pymodulenames exampleFeatureSets = ["_baplus", "alpha", "zeta"] := by
  refine ⟨fun featuresets => List.sorted_insertionSort pyStrLeRel _,
    fun names => ⟨rfl, rfl⟩, by decide⟩

/-- C4: the init symbol for every module name other than _baplus is PyInit
followed by an underscore and the name, while _baplus maps to
DoPyInit__baplus; the forwarding block is empty exactly when _baplus is
absent from the kept names, and when _baplus is present the block defines
an extern C PyInit__baplus whose body forwards to DoPyInit__baplus. -/
theorem c4_init_symbols :
    (∀ mname : String, initname mname =
      if mname = "_baplus" then "DoPyInit__baplus" else "PyInit_" ++ mname) ∧
    (∀ names : List String,
      (init_plus_code names = "" ↔ "_baplus" ∉ names) ∧
      ("_baplus" ∈ names →
        containsSub (init_plus_code names)
          "extern \"C\" auto PyInit__baplus() -> PyObject* \x7b" = true ∧
        containsSub (init_plus_code names)
          "return DoPyInit__baplus();" = true)) := by
  constructor
  · intro mname
    by_cases h : mname = "_baplus"
    · subst h
      simp [initname]
    · simp [initname, h]
  · intro names
    constructor
    · constructor
      · intro h hmem
        rw [init_plus_code, if_pos hmem] at h
        exact absurd h (by decide)
      · intro h
        rw [init_plus_code, if_neg h]
    · intro hmem
      rw [init_plus_code, if_pos hmem]
      exact ⟨by decide, by decide⟩

/-- C4 witness: concrete instances of the conditional parts at the
singleton name lists. -/
theorem c4_init_symbols_witness :
    init_plus_code ["alpha"] = "" ∧
    containsSub (init_plus_code ["_baplus"])
      "return DoPyInit__baplus();" = true :=
  ⟨(c4_init_symbols.2 ["alpha"]).1.mpr (by decide),
   ((c4_init_symbols.2 ["_baplus"]).2 (by decide)).2⟩

/-- C2 counterexample: the spinoff_test delegation command performs its
delegation even under batch dispatch and never raises the batch misuse
error, so not every command checks the batch precondition at its start. -/
theorem c2_batch_guard_counterexample :
    spinoff_test true ["pcommand", "spinoff_test"] =
      ([Effect.spinoffTestCall []], .ok) ∧
    (spinoff_test true ["pcommand", "spinoff_test"]).2 ≠
      Outcome.batchError := by
  exact ⟨rfl, by decide⟩

/-- C2 (amended): every command except the spinoff_test delegation checks
the batch-dispatch precondition synchronously at its start: invoked with
the batch flag set, each of the other twelve commands performs no effect
at all and terminates with the batch misuse error, for all inputs. -/
theorem c2_batch_guard :
    (∀ argv featuresets,
      gen_monolithic_register_modules true argv featuresets =
        ([], .batchError)) ∧
    (∀ argv syspath, py_examine true argv syspath = ([], .batchError)) ∧
    (∀ mp mpr st, clean_orphaned_assets_run true mp mpr st =
      (st, [], .batchError)) ∧
    (∀ mp mpr, win_ci_install_prereqs true mp mpr = ([], .batchError)) ∧
    (∀ msbuildOk, win_ci_binary_build true msbuildOk = ([], .batchError)) ∧
    (∀ argv platform makeOk t1 lpE t2 ldE,
      update_cmake_prefab_lib true argv platform makeOk t1 lpE t2 ldE =
        ([], .batchError)) ∧
    (∀ argv dE sD sH cB cR,
      android_archive_unstripped_libs true argv dE sD sH cB cR =
        ([], .batchError)) ∧
    (∀ a b c, spinoff_check_submodule_parent true a b c =
      ([], .batchError)) ∧
    (∀ argv pp cB cR, gen_python_init_module true argv pp cB cR =
      ([], .batchError)) ∧
    (∀ d, tests_warm_start true d = ([], .batchError)) ∧
    (∀ av env cwd out, wsl_build_check_win_drive true av env cwd out =
      ([], .batchError)) ∧
    (∀ argv pe mo wo wout, wsl_path_to_win true argv pe mo wo wout =
      ([], .batchError)) := by
  refine ⟨fun _ _ => rfl, fun _ _ => rfl, fun _ _ _ => rfl, fun _ _ => rfl,
    fun _ => rfl, fun _ _ _ _ _ _ _ => rfl, fun _ _ _ _ _ _ => rfl,
    fun _ _ _ => rfl, fun _ _ _ _ => rfl, fun _ => rfl,
    fun _ _ _ _ => rfl, fun _ _ _ _ _ => rfl⟩

/-- C3 counterexample: wsl_path_to_win invoked with too few arguments does
not surface a misuse error: the raised argument-count CleanError is caught
inside the command, which logs it, prints the sentinel and returns with
the ok outcome. -/
theorem c3_arg_validation_counterexample :
    wsl_path_to_win false ["pcommand", "wsl_path_to_win"]
      (fun _ => false) true true "" =
      ([Effect.logException "wsl_to_escaped_win_path failed.",
        Effect.print wslSentinel], .ok) ∧
    (wsl_path_to_win false ["pcommand", "wsl_path_to_win"]
      (fun _ => false) true true "").2.isMisuseError = false := by
  exact ⟨rfl, rfl⟩

/-- C3 (amended): each command that validates its argument count rejects a
wrong count before any filesystem or subprocess side effect:
gen_monolithic_register_modules, update_cmake_prefab_lib,
android_archive_unstripped_libs and gen_python_init_module raise their
clean misuse errors with no effect at all; py_examine prints an error line
and exits with status 255; wsl_path_to_win converts any argument error of
its guarded region into the logged sentinel and returns normally. The
remaining commands read no positional arguments and perform no
argument-count validation. -/
theorem c3_arg_validation :
    (∀ argv featuresets, argv.length ≠ 3 →
      gen_monolithic_register_modules false argv featuresets =
        ([], .cleanError "Expected 1 arg.")) ∧
    (∀ argv syspath, argv.length ≠ 7 →
      py_examine false argv syspath =
        ([Effect.print "ERROR: expected 7 args\n"], .exitCode 255)) ∧
    (∀ argv platform makeOk t1 lpE t2 ldE, argv.length ≠ 5 →
      update_cmake_prefab_lib false argv platform makeOk t1 lpE t2 ldE =
        ([], .cleanError "Expected 3 args (standard/server, debug/release, build-dir)")) ∧
    (∀ argv dE sD sH cB cR, argv.length ≠ 4 →
      android_archive_unstripped_libs false argv dE sD sH cB cR =
        ([], .cleanError "Expected 2 args; src-dir and dst-dir")) ∧
    (∀ argv pp cB cR, argv.length ≠ 3 →
      gen_python_init_module false argv pp cB cR =
        ([], .cleanError "Expected an outfile arg.")) ∧
    (∀ argv pe mo wo wout e, wslPathGuarded argv pe mo wo = ([], .error e) →
      wsl_path_to_win false argv pe mo wo wout =
        ([Effect.logException "wsl_to_escaped_win_path failed.",
          Effect.print wslSentinel], .ok)) := by
  refine ⟨?_, ?_, ?_, ?_, ?_, ?_⟩
  · intro argv featuresets h
    simp [gen_monolithic_register_modules, h]
  · intro argv syspath h
    simp [py_examine, h]
  · intro argv platform makeOk t1 lpE t2 ldE h
    simp [update_cmake_prefab_lib, h]
  · intro argv dE sD sH cB cR h
    simp [android_archive_unstripped_libs, h]
  · intro argv pp cB cR h
    simp [gen_python_init_module, h]
  · intro argv pe mo wo wout e hg
    simp [wsl_path_to_win, hg]

/-- C3 witness: each validating command rejecting one concrete wrong
argument vector. -/
theorem c3_arg_validation_witness :
    gen_monolithic_register_modules false ["pcommand", "gen"] [] =
      ([], .cleanError "Expected 1 arg.") ∧
    py_examine false ["pcommand", "py_examine"] [] =
      ([Effect.print "ERROR: expected 7 args\n"], .exitCode 255) ∧
    update_cmake_prefab_lib false ["pcommand", "update"] "linux" true 0
      false 0 false =
      ([], .cleanError "Expected 3 args (standard/server, debug/release, build-dir)") ∧
    android_archive_unstripped_libs false ["pcommand", "android"] false
      false (fun _ => false) "" "" =
      ([], .cleanError "Expected 2 args; src-dir and dst-dir") ∧
    gen_python_init_module false ["pcommand", "gen_python_init_module"]
      "" "" "" = ([], .cleanError "Expected an outfile arg.") ∧
    wsl_path_to_win false ["pcommand", "wsl_path_to_win", "a", "b"]
      (fun _ => false) true true "" =
      ([Effect.logException "wsl_to_escaped_win_path failed.",
        Effect.print wslSentinel], .ok) :=
  ⟨c3_arg_validation.1 _ [] (by decide),
   c3_arg_validation.2.1 _ [] (by decide),
   c3_arg_validation.2.2.1 _ "linux" true 0 false 0 false (by decide),
   c3_arg_validation.2.2.2.1 _ false false (fun _ => false) "" "" (by decide),
   c3_arg_validation.2.2.2.2.1 _ "" "" "" (by decide),
   c3_arg_validation.2.2.2.2.2 _ (fun _ => false) true true ""
     "More than one path provided." rfl⟩

/-- C5: with valid arguments and a successful make, update_cmake_prefab_lib
copies the built target into builddir/prefablib exactly when the
destination file does not exist or its modification time is strictly
earlier than the built target's; equal timestamps trigger no copy; and the
destination directory is created exactly when a copy happens while the
directory is missing. -/
theorem c5_conditional_copy (bt md bd platform : String) (t1 t2 : Int)
    (lpE ldE : Bool)
    (hbt : bt = "standard" ∨ bt = "server")
    (hmd : md = "debug" ∨ md = "release") :
    (Effect.run ["cp",
        prefabTarget platform (if bt = "server" then "_server" else "_gui") md,
        bd ++ "/prefablib"] ∈
      (update_cmake_prefab_lib false
        ["pcommand", "update_cmake_prefab_lib", bt, md, bd] platform true
        t1 lpE t2 ldE).1 ↔ (lpE = false ∨ t2 < t1)) ∧
    (Effect.makedirs (bd ++ "/prefablib") ∈
      (update_cmake_prefab_lib false
        ["pcommand", "update_cmake_prefab_lib", bt, md, bd] platform true
        t1 lpE t2 ldE).1 ↔ ((lpE = false ∨ t2 < t1) ∧ ldE = false)) ∧
    (update_cmake_prefab_lib false
      ["pcommand", "update_cmake_prefab_lib", bt, md, bd] platform true
      t1 lpE t2 ldE).2 = .ok := by
  rcases hbt with rfl | rfl <;> rcases hmd with rfl | rfl <;>
    cases lpE <;> cases ldE <;> by_cases h : t1 ≤ t2 <;>
    simp [update_cmake_prefab_lib, prefabTarget, h] <;> omega

/-- C5 witness: a standard debug sync where the destination exists but is
strictly older, with the destination directory missing: the copy and the
directory creation both happen. -/
theorem c5_conditional_copy_witness :
    (Effect.run ["cp",
        prefabTarget "linux_x86_64"
          (if ("standard" : String) = "server" then "_server" else "_gui")
          "debug", "bdir" ++ "/prefablib"] ∈
      (update_cmake_prefab_lib false
        ["pcommand", "update_cmake_prefab_lib", "standard", "debug", "bdir"]
        "linux_x86_64" true 2 true 1 false).1 ↔
      (true = false ∨ (1 : Int) < 2)) ∧
    (Effect.makedirs ("bdir" ++ "/prefablib") ∈
      (update_cmake_prefab_lib false
        ["pcommand", "update_cmake_prefab_lib", "standard", "debug", "bdir"]
        "linux_x86_64" true 2 true 1 false).1 ↔
      ((true = false ∨ (1 : Int) < 2) ∧ false = false)) ∧
    (update_cmake_prefab_lib false
      ["pcommand", "update_cmake_prefab_lib", "standard", "debug", "bdir"]
      "linux_x86_64" true 2 true 1 false).2 = .ok :=
  c5_conditional_copy "standard" "debug" "bdir" "linux_x86_64" 2 1 true
    false (Or.inl rfl) (Or.inl rfl)

-- ### Asset-cleaner pipeline lemmas.

/-- Keeping the known files twice keeps exactly the known files. -/
theorem orphanKept_idem (m l : List String) :
    orphanKept m (orphanKept m l) = orphanKept m l :=
  filter_filter_self _ _

/-- Among already-kept files there is nothing left to delete. -/
theorem orphanDeletions_of_kept (m l : List String) :
    orphanDeletions m (orphanKept m l) = [] :=
  filter_neg_filter _ _

/-- C6: a walked file is deleted exactly when the path obtained by
dropping its first 13 characters (the length of the build/assets/ root
spelling) is absent from the manifest union, and kept exactly when that
stripped path is present; at the command level, an unlink of a file
appears in the effect trace exactly when the file is among the computed
orphan deletions for the union of the two manifests. -/
theorem c6_orphan_deletion (mp mpr files : List String) (f : String)
    (st : AssetsState) (hroot : st.rootExists = true) :
    ("build/assets/".length = 13) ∧
    (f ∈ orphanDeletions (mp ++ mpr) files ↔
      f ∈ files ∧ sliceFrom f 13 ∉ mp ++ mpr) ∧
    (f ∈ orphanKept (mp ++ mpr) files ↔
      f ∈ files ∧ sliceFrom f 13 ∈ mp ++ mpr) ∧
    (Effect.unlink f ∈ (clean_orphaned_assets_run false mp mpr st).2.1 ↔
      f ∈ orphanDeletions (mp ++ mpr) st.files) := by
  refine ⟨by decide, ?_, ?_, ?_⟩
  · simp [orphanDeletions, List.mem_filter]
  · simp [orphanKept, List.mem_filter]
  · simp only [clean_orphaned_assets_run, hroot, if_true, if_false,
      Bool.false_eq_true, List.mem_cons, List.mem_append, List.mem_flatMap,
      List.mem_singleton]
    constructor
    · rintro (h | ⟨⟨a, ha, h⟩ | h⟩)
      · exact absurd h (by simp)
      · rcases h with h | h
        · exact absurd h (by simp)
        · rcases h with h | h
          · obtain rfl : f = a := by simpa using h
            exact ha
          · simp at h
      · simp at h
    · intro h
      exact Or.inr (Or.inl ⟨f, h, Or.inr (Or.inl rfl)⟩)

/-- C6 witness: the spec example manifest and tree: the orphan b/y.png is
unlinked, the known a/x.png is not. -/
theorem c6_orphan_deletion_witness :
    (Effect.unlink "build/assets/b/y.png" ∈
      (clean_orphaned_assets_run false ["a/x.png"] []
        ⟨true, ["build/assets/a/x.png", "build/assets/b/y.png"],
         ["build/assets/a", "build/assets/b"]⟩).2.1 ↔
      "build/assets/b/y.png" ∈ orphanDeletions (["a/x.png"] ++ [])
        ["build/assets/a/x.png", "build/assets/b/y.png"]) ∧
    ("build/assets/a/x.png" ∈ orphanDeletions (["a/x.png"] ++ [])
        ["build/assets/a/x.png", "build/assets/b/y.png"] ↔
      "build/assets/a/x.png" ∈
        ["build/assets/a/x.png", "build/assets/b/y.png"] ∧
      sliceFrom "build/assets/a/x.png" 13 ∉ ["a/x.png"] ++ []) :=
  ⟨(c6_orphan_deletion ["a/x.png"] []
      ["build/assets/a/x.png", "build/assets/b/y.png"]
      "build/assets/b/y.png"
      ⟨true, ["build/assets/a/x.png", "build/assets/b/y.png"],
       ["build/assets/a", "build/assets/b"]⟩ rfl).2.2.2,
   (c6_orphan_deletion ["a/x.png"] []
      ["build/assets/a/x.png", "build/assets/b/y.png"]
      "build/assets/a/x.png"
      ⟨true, ["build/assets/a/x.png", "build/assets/b/y.png"],
       ["build/assets/a", "build/assets/b"]⟩ rfl).2.1⟩

/-- A one-orphan example tree whose single file is unknown to an empty
manifest pair. -/
def c7ExampleState : AssetsState :=
  ⟨true, ["build/assets/a/x.png"], ["build/assets/a"]⟩

/-- C7 counterexample: with empty manifests and a tree holding only the
orphan a/x.png, the first cleaner run succeeds and empties the tree, so
the bottom-up empty-directory pruning removes the build/assets root
itself; the immediate second run then terminates with the propagated
subprocess error (find exits nonzero on the missing root, and the run is
checked), so the cleaner is not idempotent for every initial tree. -/
theorem c7_idempotence_counterexample :
    (clean_orphaned_assets_run false [] [] c7ExampleState).2.2 =
      Outcome.ok ∧
    (clean_orphaned_assets_run false [] []
      (clean_orphaned_assets_run false [] [] c7ExampleState).1).2.2 =
      Outcome.procError := by
  exact ⟨rfl, rfl⟩

/-- C7 (amended): whenever the first cleaner run succeeds and at least one
file survives it (so the build/assets root is not itself pruned), an
immediate second run with the same manifests is a strict no-op: it deletes
no file, prints no deletion notice, removes no directory, leaves the
filesystem state exactly as the first run left it, and terminates
successfully; its whole effect trace is the directory change plus the find
invocation that matches nothing. -/
theorem c7_idempotent_when_nonempty (mp mpr : List String)
    (st : AssetsState)
    (h1 : (clean_orphaned_assets_run false mp mpr st).2.2 = .ok)
    (h2 : (clean_orphaned_assets_run false mp mpr st).1.files ≠ []) :
    clean_orphaned_assets_run false mp mpr
      (clean_orphaned_assets_run false mp mpr st).1 =
    ((clean_orphaned_assets_run false mp mpr st).1,
     [Effect.chdir "PROJROOT",
      Effect.run ["find build/assets -depth -empty -type d -delete"]],
     .ok) := by
  cases hr : st.rootExists
  · exfalso
    rw [clean_orphaned_assets_run] at h1
    simp [hr] at h1
  · have hkept : (clean_orphaned_assets_run false mp mpr st).1 =
        ⟨!(orphanKept (mp ++ mpr) st.files).isEmpty,
         orphanKept (mp ++ mpr) st.files,
         st.dirs.filter (fun d => (orphanKept (mp ++ mpr) st.files).any
           (fun f => pyStartsWith f (d ++ "/")))⟩ := by
      rw [clean_orphaned_assets_run]
      simp [hr]
    have hne : (orphanKept (mp ++ mpr) st.files).isEmpty = false := by
      rw [hkept] at h2
      simpa using h2
    rw [hkept]
    rw [clean_orphaned_assets_run]
    simp [hne, orphanKept_idem, orphanDeletions_of_kept,
      filter_filter_self]

/-- C7 witness: the spec example (manifest a/x.png, tree with a/x.png and
the orphan b/y.png): after the first run deletes b/y.png and prunes b, the
second run changes nothing and succeeds. -/
theorem c7_idempotent_witness :
    clean_orphaned_assets_run false ["a/x.png"] []
      (clean_orphaned_assets_run false ["a/x.png"] []
        ⟨true, ["build/assets/a/x.png", "build/assets/b/y.png"],
         ["build/assets/a", "build/assets/b"]⟩).1 =
    ((clean_orphaned_assets_run false ["a/x.png"] []
        ⟨true, ["build/assets/a/x.png", "build/assets/b/y.png"],
         ["build/assets/a", "build/assets/b"]⟩).1,
     [Effect.chdir "PROJROOT",
      Effect.run ["find build/assets -depth -empty -type d -delete"]],
     .ok) :=
  c7_idempotent_when_nonempty ["a/x.png"] []
    ⟨true, ["build/assets/a/x.png", "build/assets/b/y.png"],
     ["build/assets/a", "build/assets/b"]⟩ rfl (by decide)

/-- C8: with the wslpath helper available, the drive check succeeds
whenever the override variable is the string 1; otherwise it raises the
multi-paragraph clean error exactly when the stripped translated working
directory starts with the backslash-backslash-wsl-dollar prefix, and
otherwise returns silently with only the two probe subprocess calls. -/
theorem c8_win_drive_check (env : Option String) (cwd out : String)
    (henv : env ≠ some "1") :
    ((wsl_build_check_win_drive false true (some "1") cwd out).2 =
      Outcome.ok) ∧
    ((wsl_build_check_win_drive false true env cwd out).2 =
        Outcome.cleanError winDriveMsg ↔
      pyStartsWith (pyStrip out) "\\\\wsl$" = true) ∧
    (pyStartsWith (pyStrip out) "\\\\wsl$" = false →
      wsl_build_check_win_drive false true env cwd out =
        ([Effect.run ["which", "wslpath"],
          Effect.run ["wslpath", "-w", "-a", cwd]], Outcome.ok)) := by
  refine ⟨rfl, ?_, ?_⟩
  · by_cases hp : pyStartsWith (pyStrip out) "\\\\wsl$" = true <;>
      simp [wsl_build_check_win_drive, henv, hp]
  · intro hp
    simp [wsl_build_check_win_drive, henv, hp]

/-- C8 witness: the override value skips the check, and a translated path
under the Linux filesystem mount (with trailing wslpath newline) fails
with the wrapped message. -/
theorem c8_win_drive_check_witness :
    ((wsl_build_check_win_drive false true (some "1") "/home/u/bap"
        "\\\\wsl$\\Ubuntu\\home\\u\\bap\n").2 = Outcome.ok) ∧
    ((wsl_build_check_win_drive false true none "/home/u/bap"
        "\\\\wsl$\\Ubuntu\\home\\u\\bap\n").2 =
        Outcome.cleanError winDriveMsg ↔
      pyStartsWith (pyStrip "\\\\wsl$\\Ubuntu\\home\\u\\bap\n")
        "\\\\wsl$" = true) ∧
    (pyStartsWith (pyStrip "\\\\wsl$\\Ubuntu\\home\\u\\bap\n")
        "\\\\wsl$" = false →
      wsl_build_check_win_drive false true none "/home/u/bap"
        "\\\\wsl$\\Ubuntu\\home\\u\\bap\n" =
        ([Effect.run ["which", "wslpath"],
          Effect.run ["wslpath", "-w", "-a", "/home/u/bap"]],
         Outcome.ok)) :=
  c8_win_drive_check none "/home/u/bap" "\\\\wsl$\\Ubuntu\\home\\u\\bap\n"
    (by decide)

/-- The guarded region of wsl_path_to_win never prints anything: its
effects are at most a directory creation and the wslpath invocation. -/
theorem wslPathGuarded_no_print (argv : List String)
    (pe : String → Bool) (mo wo : Bool) :
    ((wslPathGuarded argv pe mo wo).1).all (fun e => !e.isPrint) = true := by
  rw [wslPathGuarded]
  split
  · rfl
  · split
    · rfl
    · split
      · rfl
      · split_ifs <;> simp [Effect.isPrint] <;> split <;>
          simp [Effect.isPrint]

/-- A trace without print effects leaves any stdout accumulator alone. -/
theorem foldl_stdout_id (effs : List Effect)
    (h : effs.all (fun e => !e.isPrint) = true) :
    ∀ acc, effs.foldl
      (fun acc e => match e with | .print s => acc ++ s | _ => acc) acc =
      acc := by
  have hstep : ∀ (acc' : String) (e' : Effect), e'.isPrint = false →
      (match e' with | Effect.print s => acc' ++ s | _ => acc') = acc' := by
    intro acc' e' he'
    cases e' <;> first | rfl | simp [Effect.isPrint] at he'
  induction effs with
  | nil => intro acc; rfl
  | cons e t ih =>
    intro acc
    rw [List.all_cons, Bool.and_eq_true] at h
    have he : e.isPrint = false := by simpa using h.1
    simp only [List.foldl_cons]
    rw [hstep acc e he]
    exact ih h.2 acc

/-- C9: whenever the guarded region of wsl_path_to_win raises (argument
parsing, directory creation, the existence check or the wslpath
invocation), the command appends exactly one exception log and one print
of the sentinel to the effects already performed, its entire standard
output is the bare sentinel with no trailing newline, and it returns
normally with the ok outcome. -/
theorem c9_sentinel_on_failure (argv : List String)
    (pe : String → Bool) (mo wo : Bool) (wout : String)
    (effs : List Effect) (e : String)
    (hg : wslPathGuarded argv pe mo wo = (effs, .error e)) :
    wsl_path_to_win false argv pe mo wo wout =
      (effs ++ [Effect.logException "wsl_to_escaped_win_path failed.",
        Effect.print wslSentinel], .ok) ∧
    stdoutOf (wsl_path_to_win false argv pe mo wo wout).1 = wslSentinel ∧
    (wsl_path_to_win false argv pe mo wo wout).2 = .ok := by
  have hres : wsl_path_to_win false argv pe mo wo wout =
      (effs ++ [Effect.logException "wsl_to_escaped_win_path failed.",
        Effect.print wslSentinel], .ok) := by
    simp [wsl_path_to_win, hg]
  refine ⟨hres, ?_, by rw [hres]⟩
  have hnp := wslPathGuarded_no_print argv pe mo wo
  rw [hg] at hnp
  rw [hres]
  show stdoutOf (effs ++ _) = wslSentinel
  rw [stdoutOf, List.foldl_append, foldl_stdout_id effs hnp ""]
  rfl

/-- C9 witness: a no-argument invocation: the guarded region raises the
argument-count error, and the command logs, prints only the sentinel and
returns ok. -/
theorem c9_sentinel_on_failure_witness :
    wsl_path_to_win false ["pcommand", "wsl_path_to_win"] (fun _ => false)
      true true "" =
      ([Effect.logException "wsl_to_escaped_win_path failed.",
        Effect.print wslSentinel], .ok) ∧
    stdoutOf (wsl_path_to_win false ["pcommand", "wsl_path_to_win"]
      (fun _ => false) true true "").1 = wslSentinel ∧
    (wsl_path_to_win false ["pcommand", "wsl_path_to_win"]
      (fun _ => false) true true "").2 = .ok := by
  have h := c9_sentinel_on_failure ["pcommand", "wsl_path_to_win"]
    (fun _ => false) true true "" [] "Expected at least 1 path arg." rfl
  simpa using h

/-- C10: with a correct argument vector and a missing source directory,
android_archive_unstripped_libs first removes any pre-existing destination
directory and recreates it, and only then fails with the
source-directory-not-found clean error; its whole effect trace is the
conditional recursive delete followed by the directory creation, so a
pre-existing destination has already been replaced by a fresh empty
directory when the error is raised. -/
theorem c10_dst_wiped_before_src_check (src dst : String) (dE : Bool)
    (sH : String → Bool) (cB cR : String) :
    android_archive_unstripped_libs false
      ["pcommand", "android_archive_unstripped_libs", src, dst] dE false
      sH cB cR =
    ((if dE then [Effect.run ["rm", "-rf", dst]] else []) ++
      [Effect.makedirs dst],
     .cleanError ("Source dir not found: \x27" ++ src ++ "\x27")) := by
  cases dE <;> rfl
